import Mathlib

/-!
Verification development for the bubblejail sandbox composition and
lifecycle engine.  The Python core (`bubblejail_instance.py`) is embedded
shallowly: the argument generation of `BubblejailInit.genetate_args`, the
lifecycle of `async_run_init` together with `__aenter__`/`__aexit__`,
config editing, and metadata persistence become pure Lean functions over
explicit state, with OS resources (file descriptors, directories,
subprocesses, printed lines) modelled as data and event traces.
-/

namespace Bubblejail

/-- Content of a temporary file owned by the init object (the Python list
`self.temp_files`).  `bytes` is a file created by `copy_data_to_temp_file`;
`seccompExport` is the file produced by `SeccompState.export_to_temp_file`,
kept symbolic because the serialisation lives in the missing seccomp
module. -/
inductive TempContent where
  | bytes (content : List Nat)
  | bytesStr (content : String)
  | seccompExport (rules : List String)
  deriving DecidableEq, Repr

/-- Modelled from the spec: the `FileTransfer` dataclass of the missing
`bwrap_config` module, "FileTransfer (content: bytes, dest)  — inject
content via an inherited fd". -/
structure FileTransfer where
  content : List Nat
  dest : String
  deriving DecidableEq, Repr

/-- Modelled from the spec: one sandbox directive as dispatched by the
`isinstance` chain of `genetate_args`.  The concrete directive classes live
in the missing `bwrap_config` module; each variant here carries exactly the
data that `genetate_args` consumes from it: `bwrapConfigBase` carries the
result of `to_args()` (a list of option strings), the dbus variants carry
the result of `to_args()` (one rule string added to a set), the seccomp
variant carries the directive as an uninterpreted string, and
`launchArguments` carries `launch_args` plus the priority field described
by the spec ("LaunchArg (tokens, priority) — fragment of the inner command
line"). -/
inductive BwrapDirective where
  | bwrapConfigBase (args : List String)
  | fileTransfer (ft : FileTransfer)
  | dbusSessionArgs (arg : String)
  | dbusSystemArgs (arg : String)
  | seccompDirective (d : String)
  | launchArguments (launch_args : List String) (priority : Int)
  deriving DecidableEq, Repr

/-- Modelled from the spec: one step of a service generator.  The missing
`services` module yields plain directives, plus the two placeholder
requests `ServiceWantsHomeBind` and `ServiceWantsDbusSessionBind`, which
`genetate_args` answers by sending a path into the generator; the value
sent back determines the next directive, so the placeholder carries that
dependency as a function of the provided path. -/
inductive ServiceItem where
  | plain (d : BwrapDirective)
  | wantsHomeBind (resolve : String → BwrapDirective)
  | wantsDbusSessionBind (resolve : String → BwrapDirective)

/-- The environment of one `BubblejailInit` object: the parent instance
paths copied by `__init__`, the debug flags, the session bus address read
from `environ`, and the next free OS file descriptor (fresh descriptors
are handed out in increasing order, mirroring that every `fileno()` and
`pipe2` result is a fresh distinct descriptor). -/
structure InitEnv where
  home_bind_path : String
  runtime_dir : String
  helper_runtime_dir : String
  helper_socket_path : String
  dbus_session_socket_path : String
  dbus_system_socket_path : String
  is_shell_debug : Bool
  is_log_dbus : Bool
  dbus_session_bus_address : String
  start_fd : Nat
  plugins : List String
  helper_path_str : String
  extra_bwrap_args : List String
  args_to_run : List String
  debug_helper_script : Option String

/-- The mutable state of `BubblejailInit` touched by `genetate_args` and
`get_args_file_descriptor`. -/
structure GenState where
  bwrap_options_args : List String
  temp_files : List TempContent
  file_descriptors_to_pass : List Nat
  dbus_proxy_args : List String
  executable_args : List String
  dbus_session_opts : List String
  dbus_system_opts : List String
  seccomp_state : Option (List String)
  next_fd : Nat
  dbus_proxy_pipe_read : Nat
  dbus_proxy_pipe_write : Nat
  deriving Repr

/-- Python `set.add`: membership-based insertion.  The iteration order of a
Python `set` is unspecified; this model fixes insertion order, which is
sound for every property below (they depend only on membership and on the
absence of duplicates). -/
def setAdd (s : List String) (x : String) : List String :=
  if x ∈ s then s else s ++ [x]

/-- Dispatch of one resolved directive: the `isinstance` chain in the body
of the service loop of `genetate_args`. -/
def dispatchConfig (st : GenState) : BwrapDirective → GenState
  | .bwrapConfigBase args =>
      { st with bwrap_options_args := st.bwrap_options_args ++ args }
  | .fileTransfer ft =>
      let fd := st.next_fd
      { st with
        temp_files := st.temp_files ++ [.bytes ft.content],
        next_fd := fd + 1,
        file_descriptors_to_pass := st.file_descriptors_to_pass ++ [fd],
        bwrap_options_args :=
          st.bwrap_options_args ++ ["--file", toString fd, ft.dest] }
  | .dbusSessionArgs a =>
      { st with dbus_session_opts := setAdd st.dbus_session_opts a }
  | .dbusSystemArgs a =>
      { st with dbus_system_opts := setAdd st.dbus_system_opts a }
  | .seccompDirective d =>
      { st with seccomp_state := some (st.seccomp_state.getD [] ++ [d]) }
  | .launchArguments args _priority =>
      -- source comment at this dispatch arm: TODO: implement priority
      { st with executable_args := st.executable_args ++ args }

/-- One loop iteration: answer a placeholder request with the engine path,
then dispatch the resulting directive. -/
def processItem (env : InitEnv) (st : GenState) : ServiceItem → GenState
  | .plain d => dispatchConfig st d
  | .wantsHomeBind k => dispatchConfig st (k env.home_bind_path)
  | .wantsDbusSessionBind k => dispatchConfig st (k env.dbus_session_socket_path)

/-- The service loop of `genetate_args` over the concatenated directive
streams of all enabled services. -/
def processStream (env : InitEnv) (st : GenState) (stream : List ServiceItem) :
    GenState :=
  stream.foldl (processItem env) st

/-- Modelled from the spec: `Bind(src, dest).to_args()` of the missing
`bwrap_config` module ("Bind — mount a host path", appended to the bwrap
option list as a textual option pair). -/
def bindToArgs (src dest : String) : List String :=
  ["--bind", src, dest]

/-- The fixed option prologue appended at the top of `genetate_args`:
`--unshare-all`, `--die-with-parent`, `--as-pid-1`, conditionally
`--new-session` (only when not in shell debug mode), `--proc /proc`,
`--dev /dev`, `--clearenv`. -/
def prologueOpts (is_shell_debug : Bool) : List String :=
  ["--unshare-all", "--die-with-parent", "--as-pid-1"] ++
    (if is_shell_debug then [] else ["--new-session"]) ++
    ["--proc", "/proc", "--dev", "/dev", "--clearenv"]

/-- The part of `genetate_args` after the service loop: seccomp export,
the dbus proxy argument vector (session section, then system section;
note that `dbus_system_opts` is collected but never appended, exactly as
in the source), the two system-bus socket binds and the helper directory
bind. -/
def postLoop (env : InitEnv) (st : GenState) : GenState :=
  let st :=
    match st.seccomp_state with
    | none => st
    | some rules =>
        let fd := st.next_fd
        { st with
          temp_files := st.temp_files ++ [TempContent.seccompExport rules],
          file_descriptors_to_pass := st.file_descriptors_to_pass ++ [fd],
          next_fd := fd + 1,
          bwrap_options_args :=
            st.bwrap_options_args ++ ["--seccomp", toString fd] }
  let pipe_read := st.next_fd
  let pipe_write := st.next_fd + 1
  let st := { st with
    next_fd := st.next_fd + 2,
    dbus_proxy_pipe_read := pipe_read,
    dbus_proxy_pipe_write := pipe_write,
    dbus_proxy_args :=
      ["xdg-dbus-proxy", env.dbus_session_bus_address,
        env.dbus_session_socket_path] ++
      ["--fd=" ++ toString pipe_write] ++
      st.dbus_session_opts ++ ["--filter"] ++
      (if env.is_log_dbus then ["--log"] else []) ++
      ["unix:path=/run/dbus/system_bus_socket",
        env.dbus_system_socket_path] ++
      ["--filter"] ++
      (if env.is_log_dbus then ["--log"] else []) }
  { st with
    bwrap_options_args := st.bwrap_options_args ++
      bindToArgs env.dbus_system_socket_path
        "/var/run/dbus/system_bus_socket" ++
      bindToArgs env.dbus_system_socket_path "/run/dbus/system_bus_socket" ++
      bindToArgs env.helper_runtime_dir "/run/bubblehelp" }

/-- The state of a fresh `BubblejailInit` right after the prologue options
of `genetate_args` have been appended. -/
def initState (env : InitEnv) : GenState :=
  { bwrap_options_args := prologueOpts env.is_shell_debug,
    temp_files := [],
    file_descriptors_to_pass := [],
    dbus_proxy_args := [],
    executable_args := [],
    dbus_session_opts := [],
    dbus_system_opts := [],
    seccomp_state := none,
    next_fd := env.start_fd,
    dbus_proxy_pipe_read := 0,
    dbus_proxy_pipe_write := 0 }

/-- `BubblejailInit.genetate_args`: prologue, service loop, post-loop. -/
def genetateArgs (env : InitEnv) (stream : List ServiceItem) : GenState :=
  postLoop env (processStream env (initState env) stream)

/-- `BubblejailInit.get_args_file_descriptor`: serialise the option list
NUL-joined into a fresh temp file, register its descriptor, return it with
the updated state. -/
def getArgsFileDescriptor (st : GenState) : Nat × GenState :=
  let options_null :=
    String.intercalate (String.mk [Char.ofNat 0]) st.bwrap_options_args
  let fd := st.next_fd
  (fd,
    { st with
      temp_files := st.temp_files ++ [.bytesStr options_null],
      file_descriptors_to_pass := st.file_descriptors_to_pass ++ [fd],
      next_fd := fd + 1 })

/-! ### Derived descriptions of the service loop

The following functions describe, per directive and per stream, what the
loop of `genetate_args` contributes to each state field.  They are proof
artifacts used to characterise the fold; the authoritative definition
remains `processStream`. -/

/-- Resolution of a service item to the directive actually dispatched:
placeholder requests receive the engine-provided path. -/
def itemDirective (env : InitEnv) : ServiceItem → BwrapDirective
  | .plain d => d
  | .wantsHomeBind k => k env.home_bind_path
  | .wantsDbusSessionBind k => k env.dbus_session_socket_path

/-- Bwrap option strings contributed by one directive, given the next free
file descriptor. -/
def dirOptsSeg (fd : Nat) : BwrapDirective → List String
  | .bwrapConfigBase args => args
  | .fileTransfer ft => ["--file", toString fd, ft.dest]
  | _ => []

/-- Number of file descriptors consumed by one directive. -/
def dirFdCount : BwrapDirective → Nat
  | .fileTransfer _ => 1
  | _ => 0

/-- Descriptors registered for passing by one directive. -/
def dirFds (fd : Nat) : BwrapDirective → List Nat
  | .fileTransfer _ => [fd]
  | _ => []

/-- Temp files created by one directive. -/
def dirTemps : BwrapDirective → List TempContent
  | .fileTransfer ft => [.bytes ft.content]
  | _ => []

/-- Inner command line tokens contributed by one directive. -/
def dirExecArgs : BwrapDirective → List String
  | .launchArguments args _ => args
  | _ => []

/-- Session dbus rule strings emitted by one directive. -/
def dirSessionRules : BwrapDirective → List String
  | .dbusSessionArgs a => [a]
  | _ => []

/-- System dbus rule strings emitted by one directive. -/
def dirSystemRules : BwrapDirective → List String
  | .dbusSystemArgs a => [a]
  | _ => []

/-- Seccomp directives forwarded by one directive. -/
def dirSeccomp : BwrapDirective → List String
  | .seccompDirective d => [d]
  | _ => []

/-- Option strings contributed by a whole stream, threading the fd
counter. -/
def streamOpts (env : InitEnv) (fd : Nat) : List ServiceItem → List String
  | [] => []
  | it :: rest =>
      let d := itemDirective env it
      dirOptsSeg fd d ++ streamOpts env (fd + dirFdCount d) rest

/-- Descriptors registered by a whole stream. -/
def streamFds (env : InitEnv) (fd : Nat) : List ServiceItem → List Nat
  | [] => []
  | it :: rest =>
      let d := itemDirective env it
      dirFds fd d ++ streamFds env (fd + dirFdCount d) rest

/-- Total number of descriptors consumed by a stream. -/
def streamFdCount (env : InitEnv) : List ServiceItem → Nat
  | [] => 0
  | it :: rest => dirFdCount (itemDirective env it) + streamFdCount env rest

/-- Temp files created by a stream. -/
def streamTemps (env : InitEnv) (stream : List ServiceItem) : List TempContent :=
  (stream.map (fun it => dirTemps (itemDirective env it))).flatten

/-- Inner command line of a stream, in emission order. -/
def streamExecArgs (env : InitEnv) (stream : List ServiceItem) : List String :=
  (stream.map (fun it => dirExecArgs (itemDirective env it))).flatten

/-- Session dbus rules of a stream, in emission order (with
multiplicity). -/
def streamSessionRules (env : InitEnv) (stream : List ServiceItem) :
    List String :=
  (stream.map (fun it => dirSessionRules (itemDirective env it))).flatten

/-- System dbus rules of a stream, in emission order (with
multiplicity). -/
def streamSystemRules (env : InitEnv) (stream : List ServiceItem) :
    List String :=
  (stream.map (fun it => dirSystemRules (itemDirective env it))).flatten

/-- Seccomp directives of a stream, in emission order. -/
def streamSeccomp (env : InitEnv) (stream : List ServiceItem) : List String :=
  (stream.map (fun it => dirSeccomp (itemDirective env it))).flatten

/-- Accumulation of seccomp directives into the optional `SeccompState`
(`None` until the first directive arrives). -/
def seccompCombine (o : Option (List String)) (l : List String) :
    Option (List String) :=
  match o, l with
  | none, [] => none
  | _, _ => some (o.getD [] ++ l)

theorem seccompCombine_nil (o : Option (List String)) :
    seccompCombine o [] = o := by
  cases o <;> simp [seccompCombine]

theorem seccompCombine_snoc (o : Option (List String)) (d : String)
    (l : List String) :
    seccompCombine (some (o.getD [] ++ [d])) l = seccompCombine o (d :: l) := by
  cases o <;> cases l <;> simp [seccompCombine]

theorem processItem_eq_dispatch (env : InitEnv) (st : GenState)
    (it : ServiceItem) :
    processItem env st it = dispatchConfig st (itemDirective env it) := by
  cases it <;> rfl

/-- Field-by-field characterisation of the service loop. -/
theorem processStream_spec (env : InitEnv) (stream : List ServiceItem) :
    ∀ st : GenState,
      processStream env st stream =
        { bwrap_options_args :=
            st.bwrap_options_args ++ streamOpts env st.next_fd stream,
          temp_files := st.temp_files ++ streamTemps env stream,
          file_descriptors_to_pass :=
            st.file_descriptors_to_pass ++ streamFds env st.next_fd stream,
          dbus_proxy_args := st.dbus_proxy_args,
          executable_args := st.executable_args ++ streamExecArgs env stream,
          dbus_session_opts :=
            (streamSessionRules env stream).foldl setAdd st.dbus_session_opts,
          dbus_system_opts :=
            (streamSystemRules env stream).foldl setAdd st.dbus_system_opts,
          seccomp_state :=
            seccompCombine st.seccomp_state (streamSeccomp env stream),
          next_fd := st.next_fd + streamFdCount env stream,
          dbus_proxy_pipe_read := st.dbus_proxy_pipe_read,
          dbus_proxy_pipe_write := st.dbus_proxy_pipe_write } := by
  induction stream with
  | nil =>
      intro st
      simp [processStream, streamOpts, streamFds, streamFdCount, streamTemps,
        streamExecArgs, streamSessionRules, streamSystemRules, streamSeccomp,
        seccompCombine_nil]
  | cons it rest ih =>
      intro st
      have hstep : processStream env st (it :: rest) =
          processStream env (processItem env st it) rest := by
        simp [processStream]
      rw [hstep, processItem_eq_dispatch, ih]
      cases hd : itemDirective env it with
      | bwrapConfigBase args =>
          simp [dispatchConfig, streamOpts, streamFds, streamFdCount,
            streamTemps, streamExecArgs, streamSessionRules,
            streamSystemRules, streamSeccomp, hd, dirOptsSeg, dirFdCount,
            dirFds, dirTemps, dirExecArgs, dirSessionRules, dirSystemRules,
            dirSeccomp]
      | fileTransfer ft =>
          simp [dispatchConfig, streamOpts, streamFds, streamFdCount,
            streamTemps, streamExecArgs, streamSessionRules,
            streamSystemRules, streamSeccomp, hd, dirOptsSeg, dirFdCount,
            dirFds, dirTemps, dirExecArgs, dirSessionRules, dirSystemRules,
            dirSeccomp, Nat.add_comm, Nat.add_assoc, Nat.add_left_comm]
      | dbusSessionArgs a =>
          simp [dispatchConfig, streamOpts, streamFds, streamFdCount,
            streamTemps, streamExecArgs, streamSessionRules,
            streamSystemRules, streamSeccomp, hd, dirOptsSeg, dirFdCount,
            dirFds, dirTemps, dirExecArgs, dirSessionRules, dirSystemRules,
            dirSeccomp]
      | dbusSystemArgs a =>
          simp [dispatchConfig, streamOpts, streamFds, streamFdCount,
            streamTemps, streamExecArgs, streamSessionRules,
            streamSystemRules, streamSeccomp, hd, dirOptsSeg, dirFdCount,
            dirFds, dirTemps, dirExecArgs, dirSessionRules, dirSystemRules,
            dirSeccomp]
      | seccompDirective d =>
          simp [dispatchConfig, streamOpts, streamFds, streamFdCount,
            streamTemps, streamExecArgs, streamSessionRules,
            streamSystemRules, streamSeccomp, hd, dirOptsSeg, dirFdCount,
            dirFds, dirTemps, dirExecArgs, dirSessionRules, dirSystemRules,
            dirSeccomp, seccompCombine_snoc]
      | launchArguments args priority =>
          simp [dispatchConfig, streamOpts, streamFds, streamFdCount,
            streamTemps, streamExecArgs, streamSessionRules,
            streamSystemRules, streamSeccomp, hd, dirOptsSeg, dirFdCount,
            dirFds, dirTemps, dirExecArgs, dirSessionRules, dirSystemRules,
            dirSeccomp]

/-! ### Characterisation of the full argument generation -/

/-- The `--seccomp` option pair appended after the loop when at least one
seccomp directive was seen. -/
def seccompSeg (env : InitEnv) (stream : List ServiceItem) : List String :=
  if streamSeccomp env stream = [] then []
  else ["--seccomp", toString (env.start_fd + streamFdCount env stream)]

/-- The descriptor registered for the exported seccomp program, if any. -/
def seccompFdOpt (env : InitEnv) (stream : List ServiceItem) : List Nat :=
  if streamSeccomp env stream = [] then []
  else [env.start_fd + streamFdCount env stream]

/-- The temp file holding the exported seccomp program, if any. -/
def seccompTempOpt (env : InitEnv) (stream : List ServiceItem) :
    List TempContent :=
  if streamSeccomp env stream = [] then []
  else [.seccompExport (streamSeccomp env stream)]

/-- The next free descriptor after the optional seccomp export. -/
def afterSeccompFd (env : InitEnv) (stream : List ServiceItem) : Nat :=
  env.start_fd + streamFdCount env stream +
    (if streamSeccomp env stream = [] then 0 else 1)

/-- Read end of the dbus proxy ready pipe. -/
def pipeReadFd (env : InitEnv) (stream : List ServiceItem) : Nat :=
  afterSeccompFd env stream

/-- Write end of the dbus proxy ready pipe. -/
def pipeWriteFd (env : InitEnv) (stream : List ServiceItem) : Nat :=
  afterSeccompFd env stream + 1

/-- The final deduplicated session rule list. -/
def sessionOptsFinal (env : InitEnv) (stream : List ServiceItem) :
    List String :=
  (streamSessionRules env stream).foldl setAdd []

/-- The final deduplicated system rule list (collected but never used by
the proxy argument vector, as in the source). -/
def systemOptsFinal (env : InitEnv) (stream : List ServiceItem) :
    List String :=
  (streamSystemRules env stream).foldl setAdd []

/-- The final dbus proxy argument vector. -/
def dbusProxyArgsFinal (env : InitEnv) (stream : List ServiceItem) :
    List String :=
  ["xdg-dbus-proxy", env.dbus_session_bus_address,
    env.dbus_session_socket_path,
    "--fd=" ++ toString (pipeWriteFd env stream)] ++
  sessionOptsFinal env stream ++ ["--filter"] ++
  (if env.is_log_dbus then ["--log"] else []) ++
  ["unix:path=/run/dbus/system_bus_socket", env.dbus_system_socket_path,
    "--filter"] ++
  (if env.is_log_dbus then ["--log"] else [])

/-- The fixed binds appended at the end of `genetate_args`. -/
def epilogueBinds (env : InitEnv) : List String :=
  bindToArgs env.dbus_system_socket_path "/var/run/dbus/system_bus_socket" ++
  bindToArgs env.dbus_system_socket_path "/run/dbus/system_bus_socket" ++
  bindToArgs env.helper_runtime_dir "/run/bubblehelp"

/-- Full field-by-field characterisation of `genetate_args`. -/
theorem genetateArgs_spec (env : InitEnv) (stream : List ServiceItem) :
    genetateArgs env stream =
      { bwrap_options_args :=
          prologueOpts env.is_shell_debug ++
            streamOpts env env.start_fd stream ++
            seccompSeg env stream ++ epilogueBinds env,
        temp_files := streamTemps env stream ++ seccompTempOpt env stream,
        file_descriptors_to_pass :=
          streamFds env env.start_fd stream ++ seccompFdOpt env stream,
        dbus_proxy_args := dbusProxyArgsFinal env stream,
        executable_args := streamExecArgs env stream,
        dbus_session_opts := sessionOptsFinal env stream,
        dbus_system_opts := systemOptsFinal env stream,
        seccomp_state := seccompCombine none (streamSeccomp env stream),
        next_fd := afterSeccompFd env stream + 2,
        dbus_proxy_pipe_read := pipeReadFd env stream,
        dbus_proxy_pipe_write := pipeWriteFd env stream } := by
  unfold genetateArgs
  rw [processStream_spec]
  cases h : streamSeccomp env stream with
  | nil =>
      simp [postLoop, seccompCombine, h, initState, seccompSeg, seccompFdOpt,
        seccompTempOpt, afterSeccompFd, pipeReadFd, pipeWriteFd,
        sessionOptsFinal, systemOptsFinal, dbusProxyArgsFinal, epilogueBinds]
  | cons d ds =>
      simp [postLoop, seccompCombine, h, initState, seccompSeg, seccompFdOpt,
        seccompTempOpt, afterSeccompFd, pipeReadFd, pipeWriteFd,
        sessionOptsFinal, systemOptsFinal, dbusProxyArgsFinal, epilogueBinds]

/-! ### Support lemmas for the claims over `genetate_args` -/

theorem setAdd_nodup {l : List String} (x : String) (h : l.Nodup) :
    (setAdd l x).Nodup := by
  unfold setAdd
  split
  · exact h
  · next hx => simp [List.nodup_append, h, hx]

theorem foldl_setAdd_nodup (rules : List String) :
    ∀ s : List String, s.Nodup → (rules.foldl setAdd s).Nodup := by
  induction rules with
  | nil => intro s hs; simpa using hs
  | cons r rest ih =>
      intro s hs
      simpa [List.foldl_cons] using ih (setAdd s r) (setAdd_nodup r hs)

theorem mem_foldl_setAdd (rules : List String) :
    ∀ (s : List String) (x : String),
      x ∈ rules.foldl setAdd s ↔ x ∈ s ∨ x ∈ rules := by
  induction rules with
  | nil => intro s x; simp
  | cons r rest ih =>
      intro s x
      rw [List.foldl_cons, ih]
      unfold setAdd
      split
      · next hr =>
          constructor
          · rintro (h | h)
            · exact Or.inl h
            · exact Or.inr (List.mem_cons_of_mem _ h)
          · rintro (h | h)
            · exact Or.inl h
            · rcases List.mem_cons.mp h with h | h
              · exact Or.inl (h ▸ hr)
              · exact Or.inr h
      · constructor
        · rintro (h | h)
          · rcases List.mem_append.mp h with h | h
            · exact Or.inl h
            · simp at h
              exact Or.inr (h ▸ List.mem_cons_self _ _)
          · exact Or.inr (List.mem_cons_of_mem _ h)
        · rintro (h | h)
          · exact Or.inl (List.mem_append_left _ h)
          · rcases List.mem_cons.mp h with h | h
            · exact Or.inl (List.mem_append_right _ (by simp [h]))
            · exact Or.inr h

/-- The launch-argument fragments of a stream, in emission order, paired
with their priorities. -/
def launchFragments (env : InitEnv) (stream : List ServiceItem) :
    List (List String × Int) :=
  (stream.map (fun it =>
    match itemDirective env it with
    | .launchArguments args p => [(args, p)]
    | _ => [])).flatten

theorem streamExecArgs_eq_fragments (env : InitEnv)
    (stream : List ServiceItem) :
    streamExecArgs env stream =
      ((launchFragments env stream).map Prod.fst).flatten := by
  induction stream with
  | nil => simp [streamExecArgs, launchFragments]
  | cons it rest ih =>
      have hstream : streamExecArgs env (it :: rest) =
          dirExecArgs (itemDirective env it) ++ streamExecArgs env rest := by
        simp [streamExecArgs]
      have hfrag : launchFragments env (it :: rest) =
          (match itemDirective env it with
            | .launchArguments args p => [(args, p)]
            | _ => []) ++ launchFragments env rest := by
        simp [launchFragments]
      rw [hstream, hfrag, List.map_append, List.flatten_append, ih]
      cases hd : itemDirective env it <;> simp [dirExecArgs, hd]

/-- Written from the claim text, for comparison with the source behaviour:
stable insertion of a fragment into a priority-sorted fragment list (lower
priority first, an earlier-emitted fragment stays before later fragments
of equal priority). -/
def insertByPriority (x : List String × Int) :
    List (List String × Int) → List (List String × Int)
  | [] => [x]
  | y :: ys =>
      if y.2 < x.2 then y :: insertByPriority x ys else x :: y :: ys

/-- Written from the claim text: the inner command line that the claim
describes, namely the concatenation of the token fragments sorted stably
by priority, lower priority first. -/
def specStableSortedExecArgs (env : InitEnv) (stream : List ServiceItem) :
    List String :=
  (((launchFragments env stream).foldr insertByPriority []).map
    Prod.fst).flatten

/-- A concrete environment used by concrete evaluations below. -/
def sampleEnv : InitEnv :=
  { home_bind_path := "/data/alice/home",
    runtime_dir := "/run/user/1000/bubblejail/alice",
    helper_runtime_dir := "/run/user/1000/bubblejail/alice/helper",
    helper_socket_path :=
      "/run/user/1000/bubblejail/alice/helper/helper.socket",
    dbus_session_socket_path :=
      "/run/user/1000/bubblejail/alice/dbus_session_proxy",
    dbus_system_socket_path :=
      "/run/user/1000/bubblejail/alice/dbus_system_proxy",
    is_shell_debug := false,
    is_log_dbus := false,
    dbus_session_bus_address := "unix:path=/run/user/1000/bus",
    start_fd := 10,
    plugins := ["plug_a", "plug_b"],
    helper_path_str := "/usr/bin/bubblejail-helper",
    extra_bwrap_args := [],
    args_to_run := ["/bin/echo", "hi"],
    debug_helper_script := none }

/-! ### Claim C4 -/

/-- Claim C4: after argument generation the bwrap option list starts with
the fixed prologue `--unshare-all`, `--die-with-parent`, `--as-pid-1`,
`--proc /proc`, `--dev /dev`, `--clearenv` in that relative order at the
head, with `--new-session` inserted exactly when shell debug mode is
off. -/
theorem c4_prologue_at_head (env : InitEnv) (stream : List ServiceItem) :
    ∃ rest,
      (genetateArgs env stream).bwrap_options_args =
        (if env.is_shell_debug then
          ["--unshare-all", "--die-with-parent", "--as-pid-1",
            "--proc", "/proc", "--dev", "/dev", "--clearenv"]
        else
          ["--unshare-all", "--die-with-parent", "--as-pid-1",
            "--new-session", "--proc", "/proc", "--dev", "/dev",
            "--clearenv"]) ++ rest := by
  refine ⟨streamOpts env env.start_fd stream ++ seccompSeg env stream ++
    epilogueBinds env, ?_⟩
  rw [genetateArgs_spec]
  cases env.is_shell_debug <;> simp [prologueOpts]

/-! ### Claim C3 -/

/-- Claim C3, counterexample: with two launch fragments emitted as
priority 1 first and priority 0 second, the source keeps emission order
(the TODO-marked dispatch arm ignores the priority), while the claim
demands the priority-sorted order; the two disagree. -/
theorem c3_counterexample :
    (genetateArgs sampleEnv
        [.plain (.launchArguments ["b"] 1),
          .plain (.launchArguments ["a"] 0)]).executable_args ≠
      specStableSortedExecArgs sampleEnv
        [.plain (.launchArguments ["b"] 1),
          .plain (.launchArguments ["a"] 0)] := by
  decide

/-- Claim C3 (amended): the inner command line is the concatenation of the
launch-argument token fragments in emission order; the priority field is
ignored by the dispatch arm (marked TODO in the source). -/
theorem c3_launch_args_emission_order (env : InitEnv)
    (stream : List ServiceItem) :
    (genetateArgs env stream).executable_args =
      ((launchFragments env stream).map Prod.fst).flatten := by
  rw [genetateArgs_spec]
  exact streamExecArgs_eq_fragments env stream

/-! ### Claim C10 -/

/-- Claim C10: session and system dbus rules are accumulated in sets, so
any rule string distinct from the fixed proxy tokens appears at most once
in the dbus proxy argument vector, no matter how often its directive was
emitted. -/
theorem c10_dbus_rule_at_most_once (env : InitEnv)
    (stream : List ServiceItem) (r : String)
    (h : r ∉ ["xdg-dbus-proxy", env.dbus_session_bus_address,
      env.dbus_session_socket_path,
      "--fd=" ++ toString (pipeWriteFd env stream), "--filter", "--log",
      "unix:path=/run/dbus/system_bus_socket",
      env.dbus_system_socket_path]) :
    ((genetateArgs env stream).dbus_proxy_args).count r ≤ 1 := by
  rw [genetateArgs_spec]
  simp only [List.mem_cons, not_or] at h
  obtain ⟨h1, h2, h3, h4, h5, h6, h7, h8, -⟩ := h
  have hnodup : (sessionOptsFinal env stream).Nodup :=
    foldl_setAdd_nodup _ _ List.nodup_nil
  have hsess : (sessionOptsFinal env stream).count r ≤ 1 :=
    List.nodup_iff_count_le_one.mp hnodup r
  simp [dbusProxyArgsFinal, List.count_append, List.count_cons, h1, h2, h3,
    h4, h5, h6, h7, h8]
  cases hlog : env.is_log_dbus <;>
    simp [List.count_cons, Ne.symm h1, Ne.symm h2, Ne.symm h3, Ne.symm h4,
      Ne.symm h5, Ne.symm h6, Ne.symm h7, Ne.symm h8, List.count_eq_zero,
      hsess]

/-- Claim C10, witness: a stream emitting the same session rule three
times from two services and the same system rule twice still yields a
proxy argument vector containing the session rule at most once. -/
theorem c10_witness :
    ((genetateArgs sampleEnv
        [.plain (.dbusSessionArgs "--talk=org.freedesktop.Notifications"),
          .plain (.dbusSessionArgs "--talk=org.freedesktop.Notifications"),
          .plain (.dbusSystemArgs "--system-talk=org.freedesktop.login1"),
          .plain (.dbusSystemArgs "--system-talk=org.freedesktop.login1"),
          .plain (.dbusSessionArgs
            "--talk=org.freedesktop.Notifications")]).dbus_proxy_args).count
      "--talk=org.freedesktop.Notifications" ≤ 1 :=
  c10_dbus_rule_at_most_once sampleEnv _ _ (by decide)

/-! ### Claim C5: counting file entries

A decimal string such as `str(fd)` never collides with the literal option
string of the file directive, because rendered naturals contain no dash
character. -/

theorem digitChar_ne_dash (n : Nat) : Nat.digitChar n ≠ '-' := by
  by_cases h : n < 16
  · interval_cases n <;> decide
  · unfold Nat.digitChar
    rw [if_neg (show ¬ n = 0 by omega), if_neg (show ¬ n = 1 by omega), if_neg (show ¬ n = 2 by omega), if_neg (show ¬ n = 3 by omega), if_neg (show ¬ n = 4 by omega), if_neg (show ¬ n = 5 by omega), if_neg (show ¬ n = 6 by omega), if_neg (show ¬ n = 7 by omega), if_neg (show ¬ n = 8 by omega), if_neg (show ¬ n = 9 by omega), if_neg (show ¬ n = 10 by omega), if_neg (show ¬ n = 11 by omega), if_neg (show ¬ n = 12 by omega), if_neg (show ¬ n = 13 by omega), if_neg (show ¬ n = 14 by omega), if_neg (show ¬ n = 15 by omega)]
    decide

theorem toDigitsCore_no_dash (b : Nat) :
    ∀ (fuel n : Nat) (ds : List Char), '-' ∉ ds →
      '-' ∉ Nat.toDigitsCore b fuel n ds := by
  intro fuel
  induction fuel with
  | zero =>
      intro n ds h
      simpa [Nat.toDigitsCore] using h
  | succ fuel ih =>
      intro n ds h
      have hd : ('-' : Char) ∉ Nat.digitChar (n % b) :: ds := by
        intro hmem
        rcases List.mem_cons.mp hmem with h1 | h1
        · exact digitChar_ne_dash _ h1.symm
        · exact h h1
      rw [Nat.toDigitsCore]
      by_cases hnb : n / b = 0
      · simpa [hnb] using hd
      · simpa [hnb] using ih (n / b) (Nat.digitChar (n % b) :: ds) hd

theorem repr_no_dash (n : Nat) : '-' ∉ (Nat.repr n).data := by
  have h := toDigitsCore_no_dash 10 (n + 1) n [] (by simp)
  simpa [Nat.repr, Nat.toDigits, List.asString] using h

theorem natToString_ne_file (n : Nat) : toString n ≠ "--file" := by
  intro h
  have h2 : Nat.repr n = "--file" := h
  have hdata : (Nat.repr n).data = "--file".data := congrArg String.data h2
  have hmem : '-' ∈ (Nat.repr n).data := by
    rw [hdata]; decide
  exact repr_no_dash n hmem

/-- Does the list start with a three-token file entry `--file <fd> <dest>`
whose destination is `dest`? -/
def isFileTripleAt (l : List String) (dest : String) : Bool :=
  match l with
  | a :: _ :: c :: _ => a == "--file" && c == dest
  | _ => false

/-- Number of positions of the option list at which a file entry with
destination `dest` starts. -/
def countFileDest : List String → String → Nat
  | [], _ => 0
  | a :: rest, dest =>
      (if isFileTripleAt (a :: rest) dest then 1 else 0) +
        countFileDest rest dest

theorem isFileTripleAt_of_ne {a : String} (t : List String) (dest : String)
    (h : a ≠ "--file") : isFileTripleAt (a :: t) dest = false := by
  match t with
  | [] => rfl
  | [_] => rfl
  | _ :: _ :: _ => simp [isFileTripleAt, h]

theorem countFileDest_skip {l : List String} (r : List String)
    (dest : String) (h : "--file" ∉ l) :
    countFileDest (l ++ r) dest = countFileDest r dest := by
  induction l with
  | nil => rfl
  | cons a l ih =>
      rw [List.cons_append, countFileDest]
      have ha : a ≠ "--file" := by
        intro hh
        exact h (hh ▸ List.mem_cons_self a l)
      rw [isFileTripleAt_of_ne _ _ ha]
      simpa using ih (fun hm => h (List.mem_cons_of_mem _ hm))

theorem countFileDest_triple (fdStr d : String) (r : List String)
    (dest : String) (hfd : fdStr ≠ "--file") (hd : d ≠ "--file") :
    countFileDest (["--file", fdStr, d] ++ r) dest =
      (if d = dest then 1 else 0) + countFileDest r dest := by
  have htail : countFileDest ([fdStr, d] ++ r) dest = countFileDest r dest :=
    countFileDest_skip r dest (by simp [Ne.symm hfd, Ne.symm hd])
  rw [List.cons_append, countFileDest]
  have hhead : isFileTripleAt ("--file" :: ([fdStr, d] ++ r)) dest =
      (d == dest) := by
    simp [isFileTripleAt]
  rw [hhead, htail]
  by_cases hdd : d = dest <;> simp [hdd]

/-- The strings of one directive that land verbatim in the bwrap option
list. -/
def dirStrings : BwrapDirective → List String
  | .bwrapConfigBase args => args
  | .fileTransfer ft => [ft.dest]
  | _ => []

/-- The file-transfer destinations of one directive. -/
def dirFileDests : BwrapDirective → List String
  | .fileTransfer ft => [ft.dest]
  | _ => []

/-- All service-supplied strings that land verbatim in the bwrap option
list. -/
def streamStrings (env : InitEnv) (stream : List ServiceItem) : List String :=
  (stream.map (fun it => dirStrings (itemDirective env it))).flatten

/-- The destinations of the file-transfer directives of a stream, in
emission order. -/
def streamFileDests (env : InitEnv) (stream : List ServiceItem) :
    List String :=
  (stream.map (fun it => dirFileDests (itemDirective env it))).flatten

theorem streamStrings_cons (env : InitEnv) (it : ServiceItem)
    (rest : List ServiceItem) :
    streamStrings env (it :: rest) =
      dirStrings (itemDirective env it) ++ streamStrings env rest := by
  simp [streamStrings]

theorem streamFileDests_cons (env : InitEnv) (it : ServiceItem)
    (rest : List ServiceItem) :
    streamFileDests env (it :: rest) =
      dirFileDests (itemDirective env it) ++ streamFileDests env rest := by
  simp [streamFileDests]

theorem streamOpts_cons (env : InitEnv) (fd : Nat) (it : ServiceItem)
    (rest : List ServiceItem) :
    streamOpts env fd (it :: rest) =
      dirOptsSeg fd (itemDirective env it) ++
        streamOpts env (fd + dirFdCount (itemDirective env it)) rest := by
  simp [streamOpts]

theorem streamFds_cons (env : InitEnv) (fd : Nat) (it : ServiceItem)
    (rest : List ServiceItem) :
    streamFds env fd (it :: rest) =
      dirFds fd (itemDirective env it) ++
        streamFds env (fd + dirFdCount (itemDirective env it)) rest := by
  simp [streamFds]

theorem countFileDest_streamOpts (env : InitEnv) :
    ∀ (stream : List ServiceItem) (fd : Nat) (r : List String)
      (dest : String), "--file" ∉ streamStrings env stream →
      countFileDest (streamOpts env fd stream ++ r) dest =
        (streamFileDests env stream).count dest + countFileDest r dest := by
  intro stream
  induction stream with
  | nil =>
      intro fd r dest h
      simp [streamOpts, streamFileDests]
  | cons it rest ih =>
      intro fd r dest h
      rw [streamStrings_cons] at h
      have hhead : "--file" ∉ dirStrings (itemDirective env it) :=
        fun hm => h (List.mem_append_left _ hm)
      have htail : "--file" ∉ streamStrings env rest :=
        fun hm => h (List.mem_append_right _ hm)
      rw [streamOpts_cons, streamFileDests_cons, List.append_assoc]
      cases hd : itemDirective env it with
      | fileTransfer ft =>
          rw [hd] at hhead
          have hdest_ne : ft.dest ≠ "--file" := by
            intro hh
            exact hhead (by simp [dirStrings, hh])
          rw [show dirOptsSeg fd (BwrapDirective.fileTransfer ft) =
            ["--file", toString fd, ft.dest] from rfl]
          rw [countFileDest_triple _ _ _ _ (natToString_ne_file fd) hdest_ne,
            ih _ _ _ htail]
          rw [show dirFileDests (BwrapDirective.fileTransfer ft) =
            [ft.dest] from rfl]
          rw [List.singleton_append, List.count_cons]
          by_cases hdd : ft.dest = dest
          · simp [hdd]
            omega
          · simp [hdd]
      | bwrapConfigBase args =>
          rw [hd] at hhead
          have hargs : "--file" ∉ args := by
            simpa [dirStrings] using hhead
          rw [show dirOptsSeg fd (BwrapDirective.bwrapConfigBase args) =
            args from rfl]
          rw [countFileDest_skip _ _ hargs, ih _ _ _ htail]
          rw [show dirFileDests (BwrapDirective.bwrapConfigBase args) =
            [] from rfl, List.nil_append]
      | dbusSessionArgs a =>
          rw [show dirOptsSeg fd (BwrapDirective.dbusSessionArgs a) =
            [] from rfl, List.nil_append,
            show dirFileDests (BwrapDirective.dbusSessionArgs a) =
            [] from rfl, List.nil_append]
          exact ih _ _ _ htail
      | dbusSystemArgs a =>
          rw [show dirOptsSeg fd (BwrapDirective.dbusSystemArgs a) =
            [] from rfl, List.nil_append,
            show dirFileDests (BwrapDirective.dbusSystemArgs a) =
            [] from rfl, List.nil_append]
          exact ih _ _ _ htail
      | seccompDirective d =>
          rw [show dirOptsSeg fd (BwrapDirective.seccompDirective d) =
            [] from rfl, List.nil_append,
            show dirFileDests (BwrapDirective.seccompDirective d) =
            [] from rfl, List.nil_append]
          exact ih _ _ _ htail
      | launchArguments args p =>
          rw [show dirOptsSeg fd (BwrapDirective.launchArguments args p) =
            [] from rfl, List.nil_append,
            show dirFileDests (BwrapDirective.launchArguments args p) =
            [] from rfl, List.nil_append]
          exact ih _ _ _ htail

theorem streamOpts_file_entry (env : InitEnv) :
    ∀ (stream : List ServiceItem) (fd : Nat) (dest : String),
      dest ∈ streamFileDests env stream →
      ∃ (n : Nat) (pre post : List String),
        streamOpts env fd stream =
          pre ++ ["--file", toString n, dest] ++ post ∧
        n ∈ streamFds env fd stream := by
  intro stream
  induction stream with
  | nil =>
      intro fd dest h
      simp [streamFileDests] at h
  | cons it rest ih =>
      intro fd dest h
      rw [streamFileDests_cons] at h
      rw [streamOpts_cons, streamFds_cons]
      cases hd : itemDirective env it with
      | fileTransfer ft =>
          rw [hd] at h
          rw [show dirFileDests (BwrapDirective.fileTransfer ft) =
            [ft.dest] from rfl] at h
          rcases List.mem_append.mp h with h1 | h1
          · simp at h1
            refine ⟨fd, [],
              streamOpts env (fd + dirFdCount (BwrapDirective.fileTransfer ft))
                rest, ?_, ?_⟩
            · simp [dirOptsSeg, h1]
            · simp [dirFds]
          · obtain ⟨n, pre, post, heq, hmem⟩ := ih _ _ h1
            refine ⟨n, ["--file", toString fd, ft.dest] ++ pre, post, ?_, ?_⟩
            · rw [show dirOptsSeg fd (BwrapDirective.fileTransfer ft) =
                ["--file", toString fd, ft.dest] from rfl, heq]
              simp
            · rw [show dirFds fd (BwrapDirective.fileTransfer ft) =
                [fd] from rfl]
              exact List.mem_append_right _ hmem
      | bwrapConfigBase args =>
          rw [hd] at h
          rw [show dirFileDests (BwrapDirective.bwrapConfigBase args) =
            [] from rfl, List.nil_append] at h
          obtain ⟨n, pre, post, heq, hmem⟩ := ih _ _ h
          refine ⟨n, args ++ pre, post, ?_, ?_⟩
          · rw [show dirOptsSeg fd (BwrapDirective.bwrapConfigBase args) =
              args from rfl, heq]
            simp
          · rw [show dirFds fd (BwrapDirective.bwrapConfigBase args) =
              [] from rfl, List.nil_append]
            exact hmem
      | dbusSessionArgs a =>
          rw [hd] at h
          rw [show dirFileDests (BwrapDirective.dbusSessionArgs a) =
            [] from rfl, List.nil_append] at h
          obtain ⟨n, pre, post, heq, hmem⟩ := ih _ _ h
          exact ⟨n, pre, post, by
            rw [show dirOptsSeg fd (BwrapDirective.dbusSessionArgs a) =
              [] from rfl, List.nil_append]
            exact heq, by
            rw [show dirFds fd (BwrapDirective.dbusSessionArgs a) =
              [] from rfl, List.nil_append]
            exact hmem⟩
      | dbusSystemArgs a =>
          rw [hd] at h
          rw [show dirFileDests (BwrapDirective.dbusSystemArgs a) =
            [] from rfl, List.nil_append] at h
          obtain ⟨n, pre, post, heq, hmem⟩ := ih _ _ h
          exact ⟨n, pre, post, by
            rw [show dirOptsSeg fd (BwrapDirective.dbusSystemArgs a) =
              [] from rfl, List.nil_append]
            exact heq, by
            rw [show dirFds fd (BwrapDirective.dbusSystemArgs a) =
              [] from rfl, List.nil_append]
            exact hmem⟩
      | seccompDirective d =>
          rw [hd] at h
          rw [show dirFileDests (BwrapDirective.seccompDirective d) =
            [] from rfl, List.nil_append] at h
          obtain ⟨n, pre, post, heq, hmem⟩ := ih _ _ h
          exact ⟨n, pre, post, by
            rw [show dirOptsSeg fd (BwrapDirective.seccompDirective d) =
              [] from rfl, List.nil_append]
            exact heq, by
            rw [show dirFds fd (BwrapDirective.seccompDirective d) =
              [] from rfl, List.nil_append]
            exact hmem⟩
      | launchArguments args p =>
          rw [hd] at h
          rw [show dirFileDests (BwrapDirective.launchArguments args p) =
            [] from rfl, List.nil_append] at h
          obtain ⟨n, pre, post, heq, hmem⟩ := ih _ _ h
          exact ⟨n, pre, post, by
            rw [show dirOptsSeg fd (BwrapDirective.launchArguments args p) =
              [] from rfl, List.nil_append]
            exact heq, by
            rw [show dirFds fd (BwrapDirective.launchArguments args p) =
              [] from rfl, List.nil_append]
            exact hmem⟩

/-- The descriptors inherited by the spawned bwrap process:
`pass_fds=init.file_descriptors_to_pass` at `create_subprocess_exec`, taken
after `get_args_file_descriptor` has registered the options file. -/
def spawnPassFds (env : InitEnv) (stream : List ServiceItem) : List Nat :=
  ((getArgsFileDescriptor (genetateArgs env stream)).2).file_descriptors_to_pass

theorem file_not_mem_prologue (b : Bool) : "--file" ∉ prologueOpts b := by
  cases b <;> decide

theorem file_not_mem_seccompSeg (env : InitEnv) (stream : List ServiceItem) :
    "--file" ∉ seccompSeg env stream := by
  unfold seccompSeg
  split
  · simp
  · intro hmem
    rcases List.mem_cons.mp hmem with h | h
    · exact absurd h.symm (by decide)
    · simp at h
      exact natToString_ne_file _ h.symm

theorem file_not_mem_epilogue (env : InitEnv)
    (hsys : env.dbus_system_socket_path ≠ "--file")
    (hhelp : env.helper_runtime_dir ≠ "--file") :
    "--file" ∉ epilogueBinds env := by
  simp [epilogueBinds, bindToArgs]
  exact ⟨fun hh => hsys hh.symm, fun hh => hhelp hh.symm⟩

/-- Claim C5: for every file-transfer directive whose destination is not
shared with another file-transfer directive, the final bwrap option list
contains exactly one `--file <fd> <dest>` entry with that destination, and
that descriptor is among the descriptors inherited by the spawned bwrap
process.  The hypotheses record that no service-supplied option string and
no engine path is the literal `--file`, so that a file entry can only come
from the file-transfer dispatch arm. -/
theorem c5_file_entry_exactly_once (env : InitEnv)
    (stream : List ServiceItem) (dest : String)
    (hcount : (streamFileDests env stream).count dest = 1)
    (hserv : "--file" ∉ streamStrings env stream)
    (hsys : env.dbus_system_socket_path ≠ "--file")
    (hhelp : env.helper_runtime_dir ≠ "--file") :
    ∃ (n : Nat) (pre post : List String),
      (genetateArgs env stream).bwrap_options_args =
        pre ++ ["--file", toString n, dest] ++ post ∧
      countFileDest (genetateArgs env stream).bwrap_options_args dest = 1 ∧
      n ∈ spawnPassFds env stream := by
  have hopts : (genetateArgs env stream).bwrap_options_args =
      prologueOpts env.is_shell_debug ++
        (streamOpts env env.start_fd stream ++
          (seccompSeg env stream ++ epilogueBinds env)) := by
    rw [genetateArgs_spec]
    simp
  have hmem : dest ∈ streamFileDests env stream := by
    by_contra hnot
    rw [List.count_eq_zero_of_not_mem hnot] at hcount
    omega
  obtain ⟨n, pre, post, heq, hnfds⟩ :=
    streamOpts_file_entry env stream env.start_fd dest hmem
  have hcnt : countFileDest
      (genetateArgs env stream).bwrap_options_args dest = 1 := by
    rw [hopts,
      countFileDest_skip _ _ (file_not_mem_prologue env.is_shell_debug),
      countFileDest_streamOpts env stream env.start_fd _ dest hserv,
      countFileDest_skip _ _ (file_not_mem_seccompSeg env stream)]
    have hepi : countFileDest (epilogueBinds env) dest = 0 := by
      have := countFileDest_skip (l := epilogueBinds env) [] dest
        (file_not_mem_epilogue env hsys hhelp)
      simpa [countFileDest] using this
    rw [hepi, hcount]
  refine ⟨n, prologueOpts env.is_shell_debug ++ pre,
    post ++ (seccompSeg env stream ++ epilogueBinds env), ?_, hcnt, ?_⟩
  · rw [hopts, heq]
    simp
  · have hfds : (genetateArgs env stream).file_descriptors_to_pass =
        streamFds env env.start_fd stream ++ seccompFdOpt env stream := by
      rw [genetateArgs_spec]
    unfold spawnPassFds getArgsFileDescriptor
    simp only [List.mem_append]
    left
    rw [hfds]
    exact List.mem_append_left _ hnfds

/-- Claim C5, witness: a concrete stream with one file transfer to
`/etc/machine-id` among other directives produces exactly one file entry
with that destination. -/
theorem c5_witness :
    countFileDest
      (genetateArgs sampleEnv
        [.plain (.bwrapConfigBase ["--ro-bind", "/usr", "/usr"]),
          .plain (.fileTransfer ⟨[7, 8], "/etc/machine-id"⟩),
          .plain (.fileTransfer ⟨[1], "/etc/hostname"⟩)]).bwrap_options_args
      "/etc/machine-id" = 1 :=
  (c5_file_entry_exactly_once sampleEnv
    [.plain (.bwrapConfigBase ["--ro-bind", "/usr", "/usr"]),
      .plain (.fileTransfer ⟨[7, 8], "/etc/machine-id"⟩),
      .plain (.fileTransfer ⟨[1], "/etc/hostname"⟩)]
    "/etc/machine-id" (by decide) (by decide) (by decide)
    (by decide)).choose_spec.choose_spec.choose_spec.2.1

/-! ### Lifecycle trace model for `async_run_init` with `__aenter__` and
`__aexit__` (claims C1 and C9)

Externally visible actions of a run are modelled as an event trace; the
traces below describe the failure-free path (directory creation succeeds,
the proxy signals ready). -/

inductive RunEvent where
  | pluginEnter (name : String)
  | mkdirRuntimeDir (path : String) (mode : Nat)
  | mkdirHelperDir (path : String) (mode : Nat)
  | spawnDbusProxy (argv : List String)
  | printLine (s : String)
  | spawnBwrap (argv : List String) (pass_fds : List Nat)
  | terminateDbusProxy
  | closeTempFile (t : TempContent)
  | unlinkPath (p : String)
  | rmdirPath (p : String)
  | pluginExit (name : String)
  deriving DecidableEq, Repr

def joinSpace (l : List String) : String :=
  String.intercalate " " l

/-- `BubblejailInit.__aenter__`: enter every home plugin in directory
order, generate the arguments (no external event), create the runtime
directory mode `0o700` (448) and the helper directory mode `0o700`, then
spawn the dbus proxy and await its ready signal. -/
def aenterTrace (env : InitEnv) (stream : List ServiceItem) : List RunEvent :=
  (env.plugins.map RunEvent.pluginEnter) ++
    [RunEvent.mkdirRuntimeDir env.runtime_dir 448,
      RunEvent.mkdirHelperDir env.helper_runtime_dir 448,
      RunEvent.spawnDbusProxy (genetateArgs env stream).dbus_proxy_args]

/-- The bwrap argument vector assembled in the body of `async_run_init`:
the bwrap binary, the options-file descriptor, extra args, the helper
binary (or an inline debug interpreter invocation), the optional shell
flag, and the inner argv (the service-provided one when the caller passed
nothing). -/
def bwrapArgs (env : InitEnv) (stream : List ServiceItem) : List String :=
  ["/usr/bin/bwrap", "--args",
    toString (getArgsFileDescriptor (genetateArgs env stream)).1] ++
  env.extra_bwrap_args ++
  (match env.debug_helper_script with
    | some txt => ["python", "-X", "dev", "-c", txt]
    | none => [env.helper_path_str]) ++
  (if env.is_shell_debug then ["--shell"] else []) ++
  (if env.args_to_run.isEmpty then (genetateArgs env stream).executable_args
    else env.args_to_run)

/-- The six lines printed by the dry-run branch: each of the three `print`
pairs emits a label line and a content line. -/
def dryRunPrints (env : InitEnv) (stream : List ServiceItem) : List String :=
  ["Bwrap options: ",
    joinSpace (genetateArgs env stream).bwrap_options_args,
    "Bwrap args: ",
    joinSpace (bwrapArgs env stream),
    "Dbus session args",
    joinSpace (genetateArgs env stream).dbus_proxy_args]

/-- `BubblejailInit.__aexit__`: terminate the dbus proxy, close every temp
file, unlink the helper socket, remove the helper directory, unlink both
proxy sockets, remove the runtime directory, then run the plugin exit
hooks by iterating `activated_home_plugins` in insertion order. -/
def aexitTrace (env : InitEnv) (stream : List ServiceItem) : List RunEvent :=
  [RunEvent.terminateDbusProxy] ++
  (((getArgsFileDescriptor (genetateArgs env stream)).2).temp_files.map
    RunEvent.closeTempFile) ++
  [RunEvent.unlinkPath env.helper_socket_path,
    RunEvent.rmdirPath env.helper_runtime_dir,
    RunEvent.unlinkPath env.dbus_session_socket_path,
    RunEvent.unlinkPath env.dbus_system_socket_path,
    RunEvent.rmdirPath env.runtime_dir] ++
  (env.plugins.map RunEvent.pluginExit)

/-- The full trace of `async_run_init` with the dry-run flag set: the
context manager is entered, the argument file descriptor is taken, the six
lines are printed, the early `return` triggers `__aexit__`. -/
def dryRunTrace (env : InitEnv) (stream : List ServiceItem) : List RunEvent :=
  aenterTrace env stream ++
    (dryRunPrints env stream).map RunEvent.printLine ++
    aexitTrace env stream

def isPrintEvent : RunEvent → Bool
  | .printLine _ => true
  | _ => false

def printOf : RunEvent → Option String
  | .printLine s => some s
  | _ => none

def enterNameOf : RunEvent → Option String
  | .pluginEnter n => some n
  | _ => none

def exitNameOf : RunEvent → Option String
  | .pluginExit n => some n
  | _ => none

theorem filterMap_all_none {α β : Type} (f : α → Option β)
    (h : ∀ a, f a = none) (l : List α) : l.filterMap f = [] := by
  induction l with
  | nil => rfl
  | cons a l ih => simp [List.filterMap_cons, h, ih]

theorem filterMap_all_some {α : Type} (f : α → Option α)
    (h : ∀ a, f a = some a) (l : List α) : l.filterMap f = l := by
  induction l with
  | nil => rfl
  | cons a l ih => simp [List.filterMap_cons, h, ih]

/-! ### Claim C1 -/

/-- Claim C1, counterexample: on a concrete dry run the trace prints six
lines, not three (each labelled section is a label line plus a content
line), the runtime directory is created, and the dbus proxy is spawned;
this refutes "prints exactly three lines and returns without side effects
(runtime directory not created, proxy not started)". -/
theorem c1_counterexample :
    ((dryRunTrace sampleEnv []).countP isPrintEvent ≠ 3) ∧
    (RunEvent.mkdirRuntimeDir sampleEnv.runtime_dir 448 ∈
      dryRunTrace sampleEnv []) ∧
    (RunEvent.spawnDbusProxy (genetateArgs sampleEnv []).dbus_proxy_args ∈
      dryRunTrace sampleEnv []) := by
  refine ⟨by decide, by decide, by decide⟩

/-- Claim C1 (amended): a dry run never spawns bwrap and prints exactly
the six lines (three labels, three joined argument lists); however the
setup performed by `__aenter__` does create the runtime directory and
start the dbus proxy, and `__aexit__` then terminates the proxy and
removes the runtime directory before returning. -/
theorem c1_dry_run_behaviour (env : InitEnv) (stream : List ServiceItem) :
    (∀ (a : List String) (fds : List Nat),
      RunEvent.spawnBwrap a fds ∉ dryRunTrace env stream) ∧
    ((dryRunTrace env stream).filterMap printOf = dryRunPrints env stream) ∧
    RunEvent.mkdirRuntimeDir env.runtime_dir 448 ∈ dryRunTrace env stream ∧
    RunEvent.spawnDbusProxy (genetateArgs env stream).dbus_proxy_args ∈
      dryRunTrace env stream ∧
    RunEvent.terminateDbusProxy ∈ dryRunTrace env stream ∧
    RunEvent.rmdirPath env.runtime_dir ∈ dryRunTrace env stream := by
  refine ⟨?_, ?_, ?_, ?_, ?_, ?_⟩
  · intro a fds
    simp [dryRunTrace, aenterTrace, aexitTrace]
  · simp only [dryRunTrace, aenterTrace, aexitTrace, dryRunPrints,
      List.filterMap_append, List.filterMap_map, List.filterMap_cons,
      printOf, List.filterMap_nil]
    rw [filterMap_all_none (printOf ∘ RunEvent.pluginEnter) (fun a => rfl),
      filterMap_all_none (printOf ∘ RunEvent.closeTempFile) (fun a => rfl),
      filterMap_all_none (printOf ∘ RunEvent.pluginExit) (fun a => rfl)]
    simp [printOf]
  · simp [dryRunTrace, aenterTrace]
  · simp [dryRunTrace, aenterTrace]
  · simp [dryRunTrace, aexitTrace]
  · simp [dryRunTrace, aexitTrace]

/-! ### Claim C9 -/

/-- Claim C9, counterexample: with two home plugins the exit hooks run as
`plug_a` then `plug_b`, the same order as the enter hooks, not the claimed
reverse order. -/
theorem c9_counterexample :
    (aexitTrace sampleEnv []).filterMap exitNameOf ≠
      ((aenterTrace sampleEnv []).filterMap enterNameOf).reverse := by
  decide

/-- Claim C9 (amended): the plugin exit hooks of `__aexit__` run in the
same order in which the enter hooks were invoked by `__aenter__`
(insertion order of `activated_home_plugins`), not in reverse. -/
theorem c9_plugin_exit_order (env : InitEnv) (stream : List ServiceItem) :
    (aexitTrace env stream).filterMap exitNameOf = env.plugins ∧
    (aenterTrace env stream).filterMap enterNameOf = env.plugins := by
  constructor
  · simp only [aexitTrace, List.filterMap_append, List.filterMap_map,
      List.filterMap_cons, exitNameOf, List.filterMap_nil]
    rw [filterMap_all_none (exitNameOf ∘ RunEvent.closeTempFile)
      (fun a => rfl),
      filterMap_all_some (exitNameOf ∘ RunEvent.pluginExit) (fun a => rfl)]
    simp
  · simp only [aenterTrace, List.filterMap_append, List.filterMap_map,
      List.filterMap_cons, enterNameOf, List.filterMap_nil]
    rw [filterMap_all_some (enterNameOf ∘ RunEvent.pluginEnter)
      (fun a => rfl)]
    simp

/-! ### Claim C2: the runtime directory lock -/

/-- Outcome of the two directory creations performed by `__aenter__`:
`self.runtime_dir.mkdir(mode=0o700, parents=True, exist_ok=False)` then
`self.helper_runtime_dir.mkdir(mode=0o700)`.  A `FileExistsError` on the
runtime directory is, per the source comment, the signal that the
instance is already running.  The filesystem is a list of
(directory path, mode) pairs. -/
inductive LockResult where
  | ok (fs : List (String × Nat))
  | alreadyRunning (fs : List (String × Nat))
  | helperDirExists (fs : List (String × Nat))
  deriving DecidableEq, Repr

/-- Exclusive `mkdir`: fails atomically when the path already exists,
otherwise records the directory with the requested mode. -/
def mkdirExclusive (fs : List (String × Nat)) (path : String) (mode : Nat) :
    Option (List (String × Nat)) :=
  if path ∈ fs.map Prod.fst then none else some (fs ++ [(path, mode)])

/-- The directory-creation step of `__aenter__`. -/
def acquireRuntimeLock (env : InitEnv) (fs : List (String × Nat)) :
    LockResult :=
  match mkdirExclusive fs env.runtime_dir 448 with
  | none => .alreadyRunning fs
  | some fs1 =>
      match mkdirExclusive fs1 env.helper_runtime_dir 448 with
      | none => .helperDirExists fs1
      | some fs2 => .ok fs2

/-- Claim C2: starting a run creates the runtime directory with mode 0700
(448) by exclusive creation, and a second run attempted while the
directory exists fails with the already-running error leaving the
filesystem untouched, so the first run is undisturbed. -/
theorem c2_runtime_dir_lock (env : InitEnv) (fs : List (String × Nat)) :
    (env.runtime_dir ∉ fs.map Prod.fst →
      env.helper_runtime_dir ∉ fs.map Prod.fst →
      env.helper_runtime_dir ≠ env.runtime_dir →
      acquireRuntimeLock env fs =
        .ok (fs ++ [(env.runtime_dir, 448), (env.helper_runtime_dir, 448)])) ∧
    (env.runtime_dir ∈ fs.map Prod.fst →
      acquireRuntimeLock env fs = .alreadyRunning fs) := by
  constructor
  · intro h1 h2 h3
    have hmem : env.helper_runtime_dir ∉
        (fs ++ [(env.runtime_dir, 448)]).map Prod.fst := by
      simp only [List.map_append, List.mem_append]
      rintro (h | h)
      · exact h2 h
      · simp at h
        exact h3 h
    simp only [acquireRuntimeLock, mkdirExclusive, if_neg h1,
      List.append_assoc, List.singleton_append]
    rw [if_neg hmem]
  · intro h1
    unfold acquireRuntimeLock mkdirExclusive
    rw [if_pos h1]

/-- Claim C2, witness: on an empty filesystem the first run creates both
directories with mode 448 (0o700); with the runtime directory present
(the first run active) a second acquisition fails as already running and
leaves the filesystem, hence the first runs directories, unchanged. -/
theorem c2_witness :
    acquireRuntimeLock sampleEnv [] =
      .ok [(sampleEnv.runtime_dir, 448), (sampleEnv.helper_runtime_dir, 448)] ∧
    acquireRuntimeLock sampleEnv
        [(sampleEnv.runtime_dir, 448), (sampleEnv.helper_runtime_dir, 448)] =
      .alreadyRunning
        [(sampleEnv.runtime_dir, 448), (sampleEnv.helper_runtime_dir, 448)] :=
  ⟨by
    have h := (c2_runtime_dir_lock sampleEnv []).1 (by decide) (by decide)
      (by decide)
    simpa using h,
    (c2_runtime_dir_lock sampleEnv _).2 (by decide)⟩

/-! ### Claim C6: bwrap exit handling -/

/-- The outcome of the tail of `async_run_init`: after awaiting the bwrap
process, a non-zero return code raises `BubblewrapRunError` with a fixed
message; the error as raised carries no other data. -/
inductive BwrapRunResult where
  | ok
  | bubblewrapRunError (message : String)
  deriving DecidableEq, Repr

/-- The literal message passed to `BubblewrapRunError` in the source. -/
def bwrapFailedMessage : String :=
  "Bubblewrap failed. Try running bubblejail in terminal to see the " ++
    "exact error."

/-- `if bwrap_process.returncode != 0: raise BubblewrapRunError(...)`. -/
def bwrapWaitOutcome (returncode : Int) : BwrapRunResult :=
  if returncode ≠ 0 then .bubblewrapRunError bwrapFailedMessage else .ok

/-- Claim C6, counterexample: the errors raised for exit codes 1 and 2 are
identical, and both runs do fail, so the raised error cannot carry the
exit code as the claim states. -/
theorem c6_counterexample :
    bwrapWaitOutcome 1 = bwrapWaitOutcome 2 ∧
    bwrapWaitOutcome 1 ≠ BwrapRunResult.ok ∧ (1 : Int) ≠ 2 := by
  refine ⟨by decide, by decide, by decide⟩

/-- Claim C6 (amended): a non-zero bwrap exit code raises the
`BubblewrapRunError` with its fixed message, which does not include the
exit code; a zero exit code raises nothing. -/
theorem c6_sandbox_failed (c : Int) :
    (c ≠ 0 → bwrapWaitOutcome c =
      BwrapRunResult.bubblewrapRunError bwrapFailedMessage) ∧
    (c = 0 → bwrapWaitOutcome c = BwrapRunResult.ok) := by
  constructor
  · intro h
    simp [bwrapWaitOutcome, h]
  · intro h
    simp [bwrapWaitOutcome, h]

/-- Claim C6, witness: exit code 1 raises the fixed-message error and
exit code 0 raises nothing. -/
theorem c6_witness :
    bwrapWaitOutcome 1 =
      BwrapRunResult.bubblewrapRunError bwrapFailedMessage ∧
    bwrapWaitOutcome 0 = BwrapRunResult.ok :=
  ⟨(c6_sandbox_failed 1).1 (by decide), (c6_sandbox_failed 0).2 rfl⟩

/-! ### Claim C7: edit-config -/

/-- Result of `edit_config_in_editor`: the printed lines, the canonical
config file content afterwards, and whether validation raised. -/
structure EditResult where
  printed : List String
  config : String
  raisedConfigError : Bool
  deriving DecidableEq, Repr

/-- `BubblejailInstance.edit_config_in_editor`, with the editor run
abstracted as: the temp file holds `edited` afterwards and its
modification time went from `m0` to `m1`.  The validation step
(`BubblejailInstanceConfig(toml_loads(new_config_toml))`, whose classes
live outside the embedded sources) is a parameter `validate`; when it
raises, the canonical file is never written. -/
def editConfigInEditor (orig edited : String) (m0 m1 : Nat)
    (validate : String → Bool) : EditResult :=
  if m0 ≥ m1 then
    { printed := ["File not modified. Not overwriting config"],
      config := orig, raisedConfigError := false }
  else if validate edited then
    { printed := [], config := edited, raisedConfigError := false }
  else
    { printed := [], config := orig, raisedConfigError := true }

/-- Claim C7: the canonical config changes only when the modification
time strictly advanced and the new bytes validate (in which case it
becomes the edited bytes); when the modification time did not advance the
fixed message is printed and the original bytes survive unchanged. -/
theorem c7_edit_config (orig edited : String) (m0 m1 : Nat)
    (validate : String → Bool) :
    ((editConfigInEditor orig edited m0 m1 validate).config ≠ orig →
      m0 < m1 ∧ validate edited = true ∧
        (editConfigInEditor orig edited m0 m1 validate).config = edited) ∧
    (m0 ≥ m1 →
      (editConfigInEditor orig edited m0 m1 validate).printed =
        ["File not modified. Not overwriting config"] ∧
      (editConfigInEditor orig edited m0 m1 validate).config = orig) := by
  constructor
  · intro hne
    by_cases hm : m0 ≥ m1
    · exfalso
      apply hne
      simp [editConfigInEditor, hm]
    · by_cases hv : validate edited
      · exact ⟨by omega, hv, by simp [editConfigInEditor, hm, hv]⟩
      · exfalso
        apply hne
        simp [editConfigInEditor, hm, hv]
  · intro hm
    simp [editConfigInEditor, hm]

/-- Claim C7, witness: with an unchanged modification time the message is
printed and the config keeps its original bytes; the hypothesis of the
first conjunct is discharged on a run whose config did change. -/
theorem c7_witness :
    ((editConfigInEditor "orig" "edited" 5 5 (fun _ => true)).printed =
      ["File not modified. Not overwriting config"] ∧
      (editConfigInEditor "orig" "edited" 5 5 (fun _ => true)).config =
        "orig") ∧
    (5 < 6 ∧ (fun _ => true) "edited" = true ∧
      (editConfigInEditor "orig" "edited" 5 6 (fun _ => true)).config =
        "edited") :=
  ⟨(c7_edit_config "orig" "edited" 5 5 (fun _ => true)).2 (by decide),
    (c7_edit_config "orig" "edited" 5 6 (fun _ => true)).1 (by decide)⟩

/-! ### Claim C8: metadata setters -/

/-- Python dict assignment `d[key] = value` on an association list with
unique keys: replace the binding in place, or append a new one. -/
def dictSet : List (String × String) → String → String →
    List (String × String)
  | [], k, v => [(k, v)]
  | e :: rest, k, v =>
      if e.1 = k then (k, v) :: rest else e :: dictSet rest k v

/-- `BubblejailInstance._save_metadata_key`: read the metadata TOML into a
dict (missing file gives the empty dict), set one key, write all keys
back.  The file is modelled by its parsed dict; the external TOML
serialisation round-trips it. -/
def saveMetadataKey (file : List (String × String)) (k v : String) :
    List (String × String) :=
  dictSet file k v

theorem dictSet_lookup_self (d : List (String × String)) (k v : String) :
    (dictSet d k v).lookup k = some v := by
  induction d with
  | nil => simp [dictSet, List.lookup]
  | cons e rest ih =>
      by_cases he : e.1 = k
      · simp [dictSet, he, List.lookup]
      · have hbeq : (k == e.1) = false := by
          simp
          exact fun hh => he hh.symm
        simp [dictSet, he, List.lookup, hbeq, ih]

theorem dictSet_lookup_other (d : List (String × String)) (k v k2 : String)
    (h : k2 ≠ k) : (dictSet d k v).lookup k2 = d.lookup k2 := by
  induction d with
  | nil =>
      have hbeq : (k2 == k) = false := by
        simp
        exact h
      simp [dictSet, List.lookup, hbeq]
  | cons e rest ih =>
      by_cases he : e.1 = k
      · have hbeq : (k2 == k) = false := by
          simp
          exact h
        have hbeq2 : (k2 == e.1) = false := by rw [he]; exact hbeq
        simp [dictSet, he, List.lookup, hbeq, hbeq2]
      · by_cases he2 : e.1 = k2
        · have hbeq2 : (k2 == e.1) = true := by simp [he2]
          simp [dictSet, he, List.lookup, hbeq2]
        · have hbeq2 : (k2 == e.1) = false := by
            simp
            exact fun hh => he2 hh.symm
          simp [dictSet, he, List.lookup, hbeq2, ih]

/-- Claim C8: each metadata setter changes only its own key, so setting
`k1` then `k2` (distinct keys) leaves both bindings on disk, and any key
other than the one being set reads back unchanged after a single setter
call. -/
theorem c8_metadata_setters (d : List (String × String))
    (k1 k2 v1 v2 : String) (h : k1 ≠ k2) :
    (saveMetadataKey (saveMetadataKey d k1 v1) k2 v2).lookup k1 = some v1 ∧
    (saveMetadataKey (saveMetadataKey d k1 v1) k2 v2).lookup k2 = some v2 ∧
    (∀ k, k ≠ k1 → (saveMetadataKey d k1 v1).lookup k = d.lookup k) := by
  refine ⟨?_, ?_, ?_⟩
  · rw [saveMetadataKey, saveMetadataKey, dictSet_lookup_other _ _ _ _ h,
      dictSet_lookup_self]
  · rw [saveMetadataKey, saveMetadataKey, dictSet_lookup_self]
  · intro k hk
    rw [saveMetadataKey, dictSet_lookup_other _ _ _ _ hk]

/-- Claim C8, witness: writing the creation profile name and then the
desktop entry name leaves both keys present, and the first setter
preserved an unrelated preexisting key. -/
theorem c8_witness :
    (saveMetadataKey (saveMetadataKey [("other", "keep")]
        "creation_profile_name" "firefox")
      "desktop_entry_name" "Firefox").lookup "creation_profile_name" =
        some "firefox" ∧
    (saveMetadataKey (saveMetadataKey [("other", "keep")]
        "creation_profile_name" "firefox")
      "desktop_entry_name" "Firefox").lookup "desktop_entry_name" =
        some "Firefox" ∧
    (saveMetadataKey [("other", "keep")] "creation_profile_name"
      "firefox").lookup "other" = some "keep" := by
  obtain ⟨h1, h2, h3⟩ := c8_metadata_setters [("other", "keep")]
    "creation_profile_name" "desktop_entry_name" "firefox" "Firefox"
    (by decide)
  exact ⟨h1, h2, by simpa using h3 "other" (by decide)⟩

end Bubblejail
